import Mathlib

set_option maxRecDepth 100000

/-!
Verification of the media-download bot pipeline in `main.py`.

The file gives a shallow embedding of the pure decision logic of the
program: URL gating (`is_url`), the stream classifier
(`_has_video_stream_sync`), the normalizer (`prepare_media`), the size
reducer (`compress_if_needed`), the yt-dlp option builder
(`build_yt_dlp_opts` / `_download_video_sync`), and the request handler
(`handle_video_message`).  External effects (subprocess invocations,
Telegram sends, the filesystem) are modelled by an explicit environment
record describing each collaborator's response, and the handler is a
pure function from that environment to a trace of outbound actions plus
a termination outcome and a cleanup flag.
-/

/-! String helpers mirroring the Python string operations used by the
source (`str.strip`, `str.startswith`, the `in` substring test, and the
`pathlib` suffix/stem operations). -/

/-- Characters removed by Python `str.strip()` (ASCII whitespace subset). -/
def isSpaceChar (c : Char) : Bool :=
  c == ' ' || c == '\t' || c == '\n' || c == '\r' || c == '\x0b' || c == '\x0c'

/-- Model of Python `str.strip()`: drop leading and trailing whitespace. -/
def stripStr (s : String) : String :=
  String.mk (((s.toList.dropWhile isSpaceChar).reverse.dropWhile isSpaceChar).reverse)

/-- List-level model of `str.startswith`: `startsWithL needle hay` is true
when `hay` begins with `needle`. -/
def startsWithL : List Char → List Char → Bool
  | [], _ => true
  | _ :: _, [] => false
  | a :: as, b :: bs => a == b && startsWithL as bs

/-- List-level model of Python substring containment (`needle in hay`). -/
def infixL (needle : List Char) : List Char → Bool
  | [] => needle.isEmpty
  | c :: t => startsWithL needle (c :: t) || infixL needle t

/-- String-level substring containment, Python `needle in hay`. -/
def hasInfixStr (needle hay : String) : Bool :=
  infixL needle.toList hay.toList

/-- Model of Python `str.lower()` (ASCII case fold, which is all the
suffix comparison needs). -/
def lowerStr (s : String) : String :=
  String.mk (s.toList.map Char.toLower)

/-- Source line 37: `TELEGRAM_MAX_FILE_SIZE = 50 * 1024 * 1024`. -/
def TELEGRAM_MAX_FILE_SIZE : Nat := 50 * 1024 * 1024

/-- A filesystem path split into its directory part and its final
component, as the pipeline only ever rewrites the final component
(`with_suffix`, `with_name`). -/
structure FsPath where
  parent : String
  name : String
deriving DecidableEq

/-- Scan a reversed character list up to the first dot.  On the reversed
final component this finds the LAST dot of the name: the result is
`some (afterRev, beforeRev)` with the characters after the dot and the
characters before it, both still reversed. -/
def revDotSplit : List Char → Option (List Char × List Char)
  | [] => none
  | c :: rest =>
    if c = '.' then some ([], rest)
    else
      match revDotSplit rest with
      | some (a, b) => some (c :: a, b)
      | none => none

/-- Model of CPython `PurePath.suffix` on a final component: the part
from the last dot, provided that dot is neither the first nor the last
character of the name (so a dotfile like `.mp4` has empty suffix). -/
def nameSuffix (name : String) : String :=
  match revDotSplit name.toList.reverse with
  | some (a, b) =>
    if a.isEmpty || b.isEmpty then "" else String.mk ('.' :: a.reverse)
  | none => ""

/-- Model of CPython `PurePath.stem`: the name with `nameSuffix` removed. -/
def nameStem (name : String) : String :=
  match revDotSplit name.toList.reverse with
  | some (a, b) =>
    if a.isEmpty || b.isEmpty then name else String.mk b.reverse
  | none => name

/-- Model of `Path.with_suffix s`: replace the suffix of the final
component (append when the old suffix is empty, as CPython does). -/
def FsPath.withSuffix (p : FsPath) (s : String) : FsPath :=
  { p with name := nameStem p.name ++ s }

/-- Model of `Path.with_name n`: replace the final component. -/
def FsPath.withName (p : FsPath) (n : String) : FsPath :=
  { p with name := n }

/-- Render the path as the string handed to the external tools
(`str(path)` in the source). -/
def FsPath.str (p : FsPath) : String :=
  p.parent ++ "/" ++ p.name

/-! Stream classifier, source lines 108-129 (`_has_video_stream_sync`). -/

/-- Outcome of the `ffprobe` subprocess: `ok out` is a successful run
whose decoded standard output is `out`; `err` is any raised exception
(tool unavailable, non-zero exit, ...). -/
inductive ProbeResult where
  | ok (out : String)
  | err
deriving DecidableEq

/-- The ffprobe command built at source lines 113-124. -/
def ffprobeCmd (path : String) : List String :=
  ["ffprobe", "-v", "error", "-select_streams", "v:0",
   "-show_entries", "stream=codec_type", "-of", "csv=p=0", path]

/-- Source lines 108-129: the classifier strips the probe output and
returns its truthiness; any exception yields `true` (assume video). -/
def has_video_stream_sync (probe : ProbeResult) : Bool :=
  match probe with
  | ProbeResult.ok out => !(stripStr out == "")
  | ProbeResult.err => true

/-! The three ffmpeg command lines built by the source. -/

/-- An ASCII apostrophe, used inside the scale filter string. -/
def q : String := (Char.ofNat 39).toString

/-- The `-vf` argument of the compressor, source line 92. -/
def scaleFilter : String := "scale=" ++ q ++ "min(1280,iw)" ++ q ++ ":-2"

/-- Source lines 84-105 (`_compress_video_sync`): one downscaling
re-encode pass, H.264 veryfast CRF 28, AAC 128k. -/
def compressCmd (input output : String) : List String :=
  ["ffmpeg", "-y", "-i", input, "-vf", scaleFilter,
   "-c:v", "libx264", "-preset", "veryfast", "-crf", "28",
   "-c:a", "aac", "-b:a", "128k", output]

/-- Source lines 132-145 (`_convert_audio_to_mp3_sync`): strip video
(`-vn`) and encode audio to MP3 at 192k. -/
def toMp3Cmd (input output : String) : List String :=
  ["ffmpeg", "-y", "-i", input, "-vn",
   "-c:a", "libmp3lame", "-b:a", "192k", output]

/-- Source lines 148-170 (`_reencode_video_to_mp4_sync`): re-encode to
H.264 veryfast CRF 23, AAC 128k, no resolution change. -/
def reencodeCmd (input output : String) : List String :=
  ["ffmpeg", "-y", "-i", input,
   "-c:v", "libx264", "-preset", "veryfast", "-crf", "23",
   "-c:a", "aac", "-b:a", "128k", output]

/-- Delivery kind of a prepared artifact (`"video"` / `"audio"` in the
source). -/
inductive Kind where
  | video
  | audio
deriving DecidableEq

/-- One invocation of the external encoder, with the full command line
that the corresponding sync helper would run. -/
inductive EncodeCall where
  | reencodeMp4 (cmd : List String)
  | toMp3 (cmd : List String)
  | compress (cmd : List String)
deriving DecidableEq

/-! Normalizer, source lines 173-191 (`prepare_media`). -/

/-- Source lines 173-191: classify via the probe, then either keep an
`.mp4`-suffixed video unchanged, re-encode other video to a sibling
`.mp4`, or convert non-video to a sibling `.mp3`.  `reencodeErr` /
`toMp3Err` model an exception raised by the respective encoder
invocation (carrying its message); the second component records the
encoder invocations made (also when they raised). -/
def prepare_media (probe : ProbeResult) (reencodeErr toMp3Err : Option String)
    (path : FsPath) : Except String (FsPath × Kind) × List EncodeCall :=
  if has_video_stream_sync probe = true then
    if lowerStr (nameSuffix path.name) ≠ ".mp4" then
      let mp4 := path.withSuffix ".mp4"
      let call := EncodeCall.reencodeMp4 (reencodeCmd path.str mp4.str)
      match reencodeErr with
      | some m => (Except.error m, [call])
      | none => (Except.ok (mp4, Kind.video), [call])
    else (Except.ok (path, Kind.video), [])
  else
    let mp3 := path.withSuffix ".mp3"
    let call := EncodeCall.toMp3 (toMp3Cmd path.str mp3.str)
    match toMp3Err with
    | some m => (Except.error m, [call])
    | none => (Except.ok (mp3, Kind.audio), [call])

/-! Size reducer, source lines 194-216 (`compress_if_needed`). -/

/-- Source lines 194-216.  `sz` is `path.stat().st_size`; `compressErr`
models an exception raised by the single compression pass (caught inside
the function, yielding `None`); `outExists` / `outSize` describe the
produced file.  The second component records the encoder invocations
made. -/
def compress_if_needed (sz : Nat) (compressErr : Option String)
    (outExists : Bool) (outSize : Nat) (path : FsPath) :
    Option FsPath × List EncodeCall :=
  if sz ≤ TELEGRAM_MAX_FILE_SIZE then (some path, [])
  else
    let compressed := path.withName (nameStem path.name ++ "_compressed.mp4")
    let call := EncodeCall.compress (compressCmd path.str compressed.str)
    match compressErr with
    | some _ => (none, [call])
    | none =>
      if outExists = true ∧ outSize ≤ TELEGRAM_MAX_FILE_SIZE then
        (some compressed, [call])
      else (none, [call])

/-! URL gate, source lines 219-220 (`is_url`). -/

/-- Source lines 219-220: a pure prefix test. -/
def is_url (text : String) : Bool :=
  startsWithL "http://".toList text.toList || startsWithL "https://".toList text.toList

/-- Modelled from the spec: the spec demands `source_url` be "a
well-formed absolute URL with scheme http or https".  The repository
contains no URL parser, so this definition follows the spec's words with
the minimal requirement every well-formed absolute URL satisfies: one of
the two scheme prefixes followed by a non-empty remainder (host part).
It exists only to be compared with the source's `is_url`. -/
def specWellFormedHttpUrl (s : String) : Bool :=
  (startsWithL "http://".toList s.toList && !(s.toList.drop 7).isEmpty) ||
  (startsWithL "https://".toList s.toList && !(s.toList.drop 8).isEmpty)

/-! User-facing message constants of `handle_video_message` and
`cmd_start`, source lines 252-323. -/

/-- Initial status text, source line 258. -/
def downloadingMsg : String := "Скачиваю..."

/-- Video-too-big failure text, source lines 276-278. -/
def tooBigVideoMsg : String :=
  "Не удалось подготовить видео: файл больше 50 МБ даже после сжатия."

/-- Progress text before sending audio, source line 288. -/
def sendingAudioMsg : String := "Отправляю аудио..."

/-- Audio-too-big failure text, source line 290. -/
def tooBigAudioMsg : String := "Аудио получилось больше 50 МБ, не могу отправить."

/-- Progress text before sending video, source line 298. -/
def sendingVideoMsg : String := "Отправляю видео..."

/-- Audio caption, source line 294. -/
def audioCaption : String :=
  "Готово! 🎵 Аудио в mp3.\nНажми, чтобы скачать/сохранить."

/-- Video caption, source line 301. -/
def videoCaption : String :=
  "Готово! 🎬 Видео.\nМожно смотреть прямо в Telegram или скачать."

/-- CAPTCHA / IP-reputation failure text, source lines 315-318. -/
def captchaMsg : String :=
  "YouTube запросил подтверждение (капча/логин) для этого видео.\n" ++
  "На Render такое иногда блокируется по IP дата‑центра — попробуй другую ссылку или другой хостинг/прокси."

/-- Generic failure text, source line 320. -/
def genericMsg : String := "Произошла ошибка при скачивании или обработке видео."

/-- First bot-verification phrase, source line 314 (note the U+2019
right quote in the original). -/
def botPhrase1 : String := "Sign in to confirm you’re not a bot"

/-- Second bot-verification phrase, source line 314 (ASCII apostrophe). -/
def botPhrase2 : String :=
  "confirm you" ++ (Char.ofNat 39).toString ++ "re not a bot"

/-- Source line 314: Python `p1 in err_text or p2 in err_text`. -/
def phraseMatch (m : String) : Bool :=
  hasInfixStr botPhrase1 m || hasInfixStr botPhrase2 m

/-- The failure text chosen by the except-block, source lines 313-320. -/
def errMsgFor (m : String) : String :=
  if phraseMatch m = true then captchaMsg else genericMsg

/-! Outbound actions and the handler state machine, source lines 252-323
(`handle_video_message`). -/

/-- One outbound action accepted by the Telegram transport.  Actions
whose call raised are NOT recorded: the trace holds what the
collaborator actually received. -/
inductive OutAction where
  | answerStatus (text : String)
  | editStatus (text : String)
  | deleteStatus
  | answerVideo (path : FsPath) (caption : String) (streaming : Bool)
  | answerAudio (path : FsPath) (caption : String)
deriving DecidableEq

/-- The terminal outbound actions: a delivery, or a status edit carrying
one of the four error texts (the two size failures and the two
except-block failures).  The progress edits are not terminal. -/
def isTerminal : OutAction → Bool
  | OutAction.editStatus t =>
    t == tooBigVideoMsg || t == tooBigAudioMsg || t == captchaMsg || t == genericMsg
  | OutAction.answerVideo _ _ _ => true
  | OutAction.answerAudio _ _ => true
  | _ => false

/-- Number of terminal outbound actions in a trace. -/
def terminalCount (tr : List OutAction) : Nat :=
  tr.countP (fun a => isTerminal a)

/-- Mutable state threaded through one handler run: the successful
outbound actions so far, and how many `status.edit_text` calls were
attempted (used to index the per-call edit behaviour of the
environment). -/
structure HState where
  trace : List OutAction
  edits : Nat

/-- How the handler finishes: `noop` for the silent rejection of a
non-URL message, `done` for a normal return, `raised m` when an
exception with text `m` escapes the handler. -/
inductive HandlerOutcome where
  | noop
  | done
  | raised (msg : String)
deriving DecidableEq

/-- Behaviour of every external collaborator during one request.  A
`some m` error field means the corresponding call raises an exception
whose `str(e)` is `m`; `none` means it succeeds.  `editErrAt n`
describes the n-th `status.edit_text` call of the run.  The sizes and
existence flags describe what `stat()` / `exists()` report for the
prepared and the compressed file. -/
structure Env where
  downloadRes : Except String FsPath
  probe : ProbeResult
  reencodeErr : Option String
  toMp3Err : Option String
  preparedSize : Nat
  compressErr : Option String
  compressedExists : Bool
  compressedSize : Nat
  videoSendErr : Option String
  audioSendErr : Option String
  editErrAt : Nat → Option String
  deleteErr : Option String

/-- One `await status.edit_text(t)` call: on success the edit joins the
trace; either way the attempt counter advances, and a raised exception
is reported to the caller. -/
def doEdit (f : Nat → Option String) (s : HState) (t : String) :
    HState × Option String :=
  match f s.edits with
  | some m => ({ trace := s.trace, edits := s.edits + 1 }, some m)
  | none => ({ trace := s.trace ++ [OutAction.editStatus t], edits := s.edits + 1 }, none)

/-- The except-block, source lines 311-320: pick the CAPTCHA or the
generic text by phrase matching and edit the status message.  The edit
itself is NOT wrapped in a try/except in the source, so its failure
escapes the handler. -/
def handleErrS (env : Env) (s : HState) (m : String) : HState × HandlerOutcome :=
  match doEdit env.editErrAt s (errMsgFor m) with
  | (s2, some m2) => (s2, HandlerOutcome.raised m2)
  | (s2, none) => (s2, HandlerOutcome.done)

/-- Source lines 306-309: `status.delete()` wrapped in try/except pass. -/
def finishOk (env : Env) (s : HState) : HState :=
  match env.deleteErr with
  | some _ => s
  | none => { s with trace := s.trace ++ [OutAction.deleteStatus] }

/-- Source lines 275-304: from the final artifact (or `None`) to the
outbound delivery, including the audio size check at lines 289-291. -/
def deliverPhase (env : Env) (s : HState) (kind : Kind) (finalOpt : Option FsPath) :
    HState × HandlerOutcome :=
  match finalOpt with
  | none =>
    match doEdit env.editErrAt s tooBigVideoMsg with
    | (s2, some m) => handleErrS env s2 m
    | (s2, none) => (s2, HandlerOutcome.done)
  | some finalPath =>
    match kind with
    | Kind.audio =>
      match doEdit env.editErrAt s sendingAudioMsg with
      | (s2, some m) => handleErrS env s2 m
      | (s2, none) =>
        if TELEGRAM_MAX_FILE_SIZE < env.preparedSize then
          match doEdit env.editErrAt s2 tooBigAudioMsg with
          | (s3, some m) => handleErrS env s3 m
          | (s3, none) => (s3, HandlerOutcome.done)
        else
          match env.audioSendErr with
          | some m => handleErrS env s2 m
          | none =>
            (finishOk env
              { s2 with trace := s2.trace ++ [OutAction.answerAudio finalPath audioCaption] },
             HandlerOutcome.done)
    | Kind.video =>
      match doEdit env.editErrAt s sendingVideoMsg with
      | (s2, some m) => handleErrS env s2 m
      | (s2, none) =>
        match env.videoSendErr with
        | some m => handleErrS env s2 m
        | none =>
          (finishOk env
            { s2 with trace := s2.trace ++ [OutAction.answerVideo finalPath videoCaption true] },
           HandlerOutcome.done)

/-- The try-block body, source lines 263-320: download, normalize,
reduce (video only), deliver; every raised exception funnels into the
except-block `handleErrS`.  The second component collects the external
encoder invocations of the run. -/
def tryBody (env : Env) : (HState × HandlerOutcome) × List EncodeCall :=
  let s0 : HState := { trace := [OutAction.answerStatus downloadingMsg], edits := 0 }
  match env.downloadRes with
  | Except.error m => (handleErrS env s0 m, [])
  | Except.ok original =>
    match prepare_media env.probe env.reencodeErr env.toMp3Err original with
    | (Except.error m, pcalls) => (handleErrS env s0 m, pcalls)
    | (Except.ok pk, pcalls) =>
      let fc : Option FsPath × List EncodeCall :=
        match pk.2 with
        | Kind.audio => (some pk.1, [])
        | Kind.video =>
          compress_if_needed env.preparedSize env.compressErr
            env.compressedExists env.compressedSize pk.1
      (deliverPhase env s0 pk.2 fc.1, pcalls ++ fc.2)

/-- Final observable result of one handler invocation. -/
structure RunResult where
  trace : List OutAction
  calls : List EncodeCall
  outcome : HandlerOutcome
  cleanedUp : Bool
  tmpCreated : Bool
deriving DecidableEq

/-- Source lines 252-323 (`handle_video_message`).  A non-URL text is
rejected with no outbound action and no workspace.  Otherwise the status
message is answered, the workspace is created (`tempfile.mkdtemp` at
line 264, before any fallible step), the try-body runs, and the
`finally` at lines 321-323 removes the workspace on every exit path
(`shutil.rmtree(tmp_dir, ignore_errors=True)`). -/
def handle_video_message (env : Env) (text : String) : RunResult :=
  if is_url (stripStr text) = true then
    { trace := ((tryBody env).1).1.trace
      calls := (tryBody env).2
      outcome := (tryBody env).1.2
      cleanedUp := true
      tmpCreated := true }
  else
    { trace := [], calls := [], outcome := HandlerOutcome.noop,
      cleanedUp := false, tmpCreated := false }

/-! Fetcher configuration, source lines 46-76 (`build_yt_dlp_opts`,
`_download_video_sync`). -/

/-- A yt-dlp option value: string-valued or boolean-valued. -/
inductive OptVal where
  | s (v : String)
  | b (v : Bool)
deriving DecidableEq

/-- The output template of source line 48: title truncated to 200
characters plus the tool-chosen extension. -/
def outTemplate : String := "%(title).200s.%(ext)s"

/-- Source lines 46-64: the option dictionary handed to `YoutubeDL`,
as an insertion-ordered association list.  `proxyEnv` is
`os.getenv("YTDLP_PROXY")`; Python's truthiness test skips the key for
an unset or empty variable. -/
def build_yt_dlp_opts (output_dir : String) (proxyEnv : Option String) :
    List (String × OptVal) :=
  let base : List (String × OptVal) :=
    [("outtmpl", OptVal.s (output_dir ++ "/" ++ outTemplate)),
     ("noplaylist", OptVal.b true),
     ("quiet", OptVal.b true),
     ("no_warnings", OptVal.b true),
     ("ignoreconfig", OptVal.b true)]
  match proxyEnv with
  | some p => if p ≠ "" then base ++ [("proxy", OptVal.s p)] else base
  | none => base

/-- What `ydl.extract_info` reports back: the `requested_downloads`
file paths (empty list when the key is absent or empty) and the result
of `ydl.prepare_filename(info)` (the naming template applied by the
tool itself). -/
structure DlInfo where
  requested_downloads : List String
  prepared_filename : String
deriving DecidableEq

/-- Source lines 70-76: the reported artifact path is the first
requested download's `filepath`, falling back to
`ydl.prepare_filename(info)`. -/
def download_pick (info : DlInfo) : String :=
  match info.requested_downloads with
  | fp :: _ => fp
  | [] => info.prepared_filename

/-! Concrete inputs used by the witness theorems. -/

/-- A downloaded file already carrying the canonical extension. -/
def pA : FsPath := { parent := "/tmp/video_dl_a", name := "clip.mp4" }

/-- A downloaded file in a non-canonical container. -/
def pW : FsPath := { parent := "/tmp/video_dl_w", name := "v.webm" }

/-- A downloaded file with an upper-case canonical extension. -/
def pU : FsPath := { parent := "/tmp/video_dl_u", name := "b.MP4" }

/-- A dotfile named exactly `.mp4`: its pathlib suffix is empty. -/
def pDot : FsPath := { parent := "/tmp/video_dl_d", name := ".mp4" }

/-- An audio-only download. -/
def pB : FsPath := { parent := "/tmp/video_dl_b", name := "song.opus" }

/-- An all-collaborators-succeed environment: a small canonical video. -/
def envA : Env :=
  { downloadRes := Except.ok pA
    probe := ProbeResult.ok "video"
    reencodeErr := none
    toMp3Err := none
    preparedSize := 1000
    compressErr := none
    compressedExists := true
    compressedSize := 0
    videoSendErr := none
    audioSendErr := none
    editErrAt := fun _ => none
    deleteErr := none }

/-- A fetch failure whose message contains the bot-verification phrase. -/
def msgE : String := botPhrase1 ++ ": try again later"

/-- Environment where the download raises with the CAPTCHA phrase. -/
def envE : Env :=
  { envA with downloadRes := Except.error msgE }

/-- Environment producing an oversized audio artifact. -/
def envAud : Env :=
  { envA with
    downloadRes := Except.ok pB
    probe := ProbeResult.ok ""
    preparedSize := TELEGRAM_MAX_FILE_SIZE + 1 }

/-- Environment where only the video delivery raises; edits succeed. -/
def envDel : Env :=
  { envA with videoSendErr := some "boom" }

/-- Environment where the video delivery raises and the subsequent
error edit raises as well (the first edit, the progress text,
succeeds). -/
def envC8 : Env :=
  { envA with
    videoSendErr := some "boom"
    editErrAt := fun n => if n == 1 then some "edit failed" else none }

/-- List-level suffix test on strings, used only to state what "the
path ends in .mp4" means when comparing claims with the code. -/
def endsWithL (sfx s : String) : Bool :=
  startsWithL sfx.toList.reverse s.toList.reverse

/-! Helper lemmas about the handler model. -/

theorem isTerminal_answerStatus (t : String) :
    isTerminal (OutAction.answerStatus t) = false := rfl

theorem isTerminal_delete : isTerminal OutAction.deleteStatus = false := rfl

theorem isTerminal_answerVideo (p : FsPath) (c : String) (b : Bool) :
    isTerminal (OutAction.answerVideo p c b) = true := rfl

theorem isTerminal_answerAudio (p : FsPath) (c : String) :
    isTerminal (OutAction.answerAudio p c) = true := rfl

theorem isTerminal_sendingVideo :
    isTerminal (OutAction.editStatus sendingVideoMsg) = false := by decide

theorem isTerminal_sendingAudio :
    isTerminal (OutAction.editStatus sendingAudioMsg) = false := by decide

theorem isTerminal_tooBigVideo :
    isTerminal (OutAction.editStatus tooBigVideoMsg) = true := by decide

theorem isTerminal_tooBigAudio :
    isTerminal (OutAction.editStatus tooBigAudioMsg) = true := by decide

theorem isTerminal_errMsg (m : String) :
    isTerminal (OutAction.editStatus (errMsgFor m)) = true := by
  cases hp : phraseMatch m <;> simp only [errMsgFor, hp] <;> decide

theorem doEdit_all_none (f : Nat → Option String) (h : ∀ n, f n = none)
    (s : HState) (t : String) :
    doEdit f s t =
      ({ trace := s.trace ++ [OutAction.editStatus t], edits := s.edits + 1 }, none) := by
  unfold doEdit
  rw [h]

theorem doEdit_eq_some (f : Nat → Option String) (s : HState) (t m : String)
    (h : f s.edits = some m) :
    doEdit f s t = ({ trace := s.trace, edits := s.edits + 1 }, some m) := by
  unfold doEdit
  rw [h]

theorem handleErrS_all_none (env : Env) (h : ∀ n, env.editErrAt n = none)
    (s : HState) (m : String) :
    handleErrS env s m =
      ({ trace := s.trace ++ [OutAction.editStatus (errMsgFor m)], edits := s.edits + 1 },
       HandlerOutcome.done) := by
  unfold handleErrS
  rw [doEdit_all_none env.editErrAt h]

theorem handleErrS_eq_some (env : Env) (s : HState) (m m2 : String)
    (h : env.editErrAt s.edits = some m2) :
    handleErrS env s m =
      ({ trace := s.trace, edits := s.edits + 1 }, HandlerOutcome.raised m2) := by
  unfold handleErrS
  rw [doEdit_eq_some env.editErrAt s (errMsgFor m) m2 h]

theorem finishOk_terminalCount (env : Env) (s : HState) :
    terminalCount (finishOk env s).trace = terminalCount s.trace := by
  unfold finishOk
  cases env.deleteErr <;>
    simp [terminalCount, List.countP_append, List.countP_cons, isTerminal_delete]

theorem deliverPhase_terminal (env : Env) (hed : ∀ n, env.editErrAt n = none)
    (s : HState) (kind : Kind) (fo : Option FsPath) :
    terminalCount (deliverPhase env s kind fo).1.trace = terminalCount s.trace + 1 := by
  cases fo with
  | none =>
    simp only [deliverPhase, doEdit_all_none env.editErrAt hed]
    simp [terminalCount, List.countP_append, List.countP_cons, isTerminal_tooBigVideo]
  | some fp =>
    cases kind with
    | audio =>
      simp only [deliverPhase, doEdit_all_none env.editErrAt hed]
      by_cases hs : TELEGRAM_MAX_FILE_SIZE < env.preparedSize
      · simp only [if_pos hs, doEdit_all_none env.editErrAt hed]
        simp [terminalCount, List.countP_append, List.countP_cons,
          isTerminal_sendingAudio, isTerminal_tooBigAudio]
      · simp only [if_neg hs]
        cases ha : env.audioSendErr with
        | some m =>
          simp only [handleErrS_all_none env hed]
          simp [terminalCount, List.countP_append, List.countP_cons,
            isTerminal_sendingAudio, isTerminal_errMsg]
        | none =>
          simp only [finishOk_terminalCount]
          simp [terminalCount, List.countP_append, List.countP_cons,
            isTerminal_sendingAudio, isTerminal_answerAudio]
    | video =>
      simp only [deliverPhase, doEdit_all_none env.editErrAt hed]
      cases hv : env.videoSendErr with
      | some m =>
        simp only [handleErrS_all_none env hed]
        simp [terminalCount, List.countP_append, List.countP_cons,
          isTerminal_sendingVideo, isTerminal_errMsg]
      | none =>
        simp only [finishOk_terminalCount]
        simp [terminalCount, List.countP_append, List.countP_cons,
          isTerminal_sendingVideo, isTerminal_answerVideo]

theorem tryBody_terminal (env : Env) (hed : ∀ n, env.editErrAt n = none) :
    terminalCount ((tryBody env).1).1.trace = 1 := by
  unfold tryBody
  cases hdl : env.downloadRes with
  | error m =>
    simp only [handleErrS_all_none env hed]
    simp [terminalCount, List.countP_append, List.countP_cons,
      isTerminal_answerStatus, isTerminal_errMsg]
  | ok original =>
    rcases hp : prepare_media env.probe env.reencodeErr env.toMp3Err original with ⟨res, pcalls⟩
    cases res with
    | error m =>
      simp only [hp, handleErrS_all_none env hed]
      simp [terminalCount, List.countP_append, List.countP_cons,
        isTerminal_answerStatus, isTerminal_errMsg]
    | ok pk =>
      simp only [hp, deliverPhase_terminal env hed]
      simp [terminalCount, List.countP_cons, isTerminal_answerStatus]

/-! Claim theorems. -/

/-- C1: for every accepted input (text passing the URL check), the
workspace is created and removed on every exit path (the `finally`
block), and — whenever the status-message edits are accepted by the
transport — exactly one terminal outbound action (a video delivery, an
audio delivery, or a status edit carrying an error text) fires, exactly
once. -/
theorem C1_one_terminal_and_cleanup (env : Env) (text : String)
    (hu : is_url (stripStr text) = true) :
    (handle_video_message env text).cleanedUp = true ∧
    (handle_video_message env text).tmpCreated = true ∧
    ((∀ n, env.editErrAt n = none) →
      terminalCount (handle_video_message env text).trace = 1) := by
  unfold handle_video_message
  rw [if_pos hu]
  exact ⟨rfl, rfl, fun hed => tryBody_terminal env hed⟩

/-- C1 witness: the all-collaborators-succeed environment on a small
canonical video delivers exactly once and cleans up. -/
theorem C1_witness :
    (handle_video_message envA "http://ok").cleanedUp = true ∧
    (handle_video_message envA "http://ok").tmpCreated = true ∧
    terminalCount (handle_video_message envA "http://ok").trace = 1 := by
  obtain ⟨h1, h2, h3⟩ := C1_one_terminal_and_cleanup envA "http://ok" (by decide)
  exact ⟨h1, h2, h3 (fun n => rfl)⟩

/-- C2 counterexample: the claim says the classifier returns true on
empty probe output, but the source computes the truthiness of the
stripped output, which is false for the empty string. -/
theorem C2_counterexample :
    has_video_stream_sync (ProbeResult.ok "") = false ∧
    has_video_stream_sync (ProbeResult.ok "video") = true := by
  exact ⟨rfl, by decide⟩

/-- C2 amended: the classifier fails open (returns true) exactly when
the probe raises; on a successful probe it returns true iff the stripped
output is non-empty, and false only for empty output. -/
theorem C2_amended :
    has_video_stream_sync ProbeResult.err = true ∧
    (∀ out : String,
      has_video_stream_sync (ProbeResult.ok out) = true ↔ stripStr out ≠ "") ∧
    (∀ out : String,
      has_video_stream_sync (ProbeResult.ok out) = false ↔ stripStr out = "") := by
  refine ⟨rfl, ?_, ?_⟩ <;> intro out <;> simp [has_video_stream_sync]

/-- C3: the size reducer is a no-op (no encoder invocation) at or below
the 50 MB cap; above it the encoder runs exactly once, the re-encoded
file is returned iff it exists and fits the cap, and `none` is returned
otherwise — including when the encoding invocation itself raises. -/
theorem C3_one_pass_reducer (sz : Nat) (cErr : Option String) (ex : Bool)
    (osz : Nat) (p : FsPath) :
    (sz ≤ TELEGRAM_MAX_FILE_SIZE →
      compress_if_needed sz cErr ex osz p = (some p, [])) ∧
    (TELEGRAM_MAX_FILE_SIZE < sz →
      (compress_if_needed sz cErr ex osz p).2.length = 1 ∧
      (cErr = none → ex = true → osz ≤ TELEGRAM_MAX_FILE_SIZE →
        (compress_if_needed sz cErr ex osz p).1 =
          some (p.withName (nameStem p.name ++ "_compressed.mp4"))) ∧
      ((cErr ≠ none ∨ ex = false ∨ TELEGRAM_MAX_FILE_SIZE < osz) →
        (compress_if_needed sz cErr ex osz p).1 = none)) := by
  unfold compress_if_needed
  constructor
  · intro h
    rw [if_pos h]
  · intro h
    rw [if_neg (by omega)]
    cases cErr with
    | some m =>
      refine ⟨rfl, fun hc => absurd hc (by simp), fun _ => rfl⟩
    | none =>
      by_cases hcond : ex = true ∧ osz ≤ TELEGRAM_MAX_FILE_SIZE
      · simp only [if_pos hcond]
        refine ⟨rfl, fun _ _ _ => trivial, ?_⟩
        rintro (h1 | h2 | h3)
        · exact absurd rfl h1
        · rw [hcond.1] at h2; cases h2
        · omega
      · simp only [if_neg hcond]
        refine ⟨rfl, ?_, fun _ => trivial⟩
        intro _ hex hosz
        exact absurd ⟨hex, hosz⟩ hcond

/-- C3 witness: an oversized input with a fitting re-encoded output
yields the compressed sibling path after one encoder invocation; a
small input passes through unchanged. -/
theorem C3_witness :
    compress_if_needed 1000 none true 0 pA = (some pA, []) ∧
    (compress_if_needed (TELEGRAM_MAX_FILE_SIZE + 1) none true 1000 pA).2.length = 1 ∧
    (compress_if_needed (TELEGRAM_MAX_FILE_SIZE + 1) none true 1000 pA).1 =
      some (pA.withName (nameStem pA.name ++ "_compressed.mp4")) := by
  have hsmall := (C3_one_pass_reducer 1000 none true 0 pA).1 (by decide)
  have hbig := (C3_one_pass_reducer (TELEGRAM_MAX_FILE_SIZE + 1) none true 1000 pA).2 (by omega)
  exact ⟨hsmall, hbig.1, hbig.2.1 rfl rfl (by decide)⟩

/-! Lemmas about the normalizer, shared by several claims. -/

theorem prepare_media_canonical (probe : ProbeResult) (rErr tErr : Option String)
    (path : FsPath) (hav : has_video_stream_sync probe = true)
    (hmp4 : lowerStr (nameSuffix path.name) = ".mp4") :
    prepare_media probe rErr tErr path = (Except.ok (path, Kind.video), []) := by
  unfold prepare_media
  rw [if_pos hav, if_neg (by simp [hmp4])]

theorem prepare_media_reencode (probe : ProbeResult) (rErr tErr : Option String)
    (path : FsPath) (hav : has_video_stream_sync probe = true)
    (hmp4 : lowerStr (nameSuffix path.name) ≠ ".mp4") :
    prepare_media probe rErr tErr path =
      (match rErr with
       | some m => (Except.error m,
           [EncodeCall.reencodeMp4 (reencodeCmd path.str (path.withSuffix ".mp4").str)])
       | none => (Except.ok (path.withSuffix ".mp4", Kind.video),
           [EncodeCall.reencodeMp4 (reencodeCmd path.str (path.withSuffix ".mp4").str)])) := by
  unfold prepare_media
  rw [if_pos hav, if_pos hmp4]

theorem prepare_media_audio (probe : ProbeResult) (rErr tErr : Option String)
    (path : FsPath) (hav : has_video_stream_sync probe = false) :
    prepare_media probe rErr tErr path =
      (match tErr with
       | some m => (Except.error m,
           [EncodeCall.toMp3 (toMp3Cmd path.str (path.withSuffix ".mp3").str)])
       | none => (Except.ok (path.withSuffix ".mp3", Kind.audio),
           [EncodeCall.toMp3 (toMp3Cmd path.str (path.withSuffix ".mp3").str)])) := by
  unfold prepare_media
  rw [if_neg (by simp [hav])]

theorem compress_noop (sz : Nat) (cErr : Option String) (ex : Bool) (osz : Nat)
    (path : FsPath) (h : sz ≤ TELEGRAM_MAX_FILE_SIZE) :
    compress_if_needed sz cErr ex osz path = (some path, []) := by
  unfold compress_if_needed
  rw [if_pos h]

/-- C4: a video-classified artifact already carrying the canonical
`.mp4` suffix is returned unchanged with no encoder invocation; other
video is re-encoded once to the sibling `.mp4` with H.264 CRF 23
veryfast and AAC 128k; non-video is converted once to the sibling
`.mp3` with video stripped (`-vn`) and MP3 at 192k. -/
theorem C4_normalizer (probe : ProbeResult) (rErr tErr : Option String) (p : FsPath) :
    (has_video_stream_sync probe = true → lowerStr (nameSuffix p.name) = ".mp4" →
      prepare_media probe rErr tErr p = (Except.ok (p, Kind.video), [])) ∧
    (has_video_stream_sync probe = true → lowerStr (nameSuffix p.name) ≠ ".mp4" →
      rErr = none →
      prepare_media probe rErr tErr p =
        (Except.ok (p.withSuffix ".mp4", Kind.video),
         [EncodeCall.reencodeMp4 (reencodeCmd p.str (p.withSuffix ".mp4").str)]) ∧
      "libx264" ∈ reencodeCmd p.str (p.withSuffix ".mp4").str ∧
      "veryfast" ∈ reencodeCmd p.str (p.withSuffix ".mp4").str ∧
      "23" ∈ reencodeCmd p.str (p.withSuffix ".mp4").str ∧
      "aac" ∈ reencodeCmd p.str (p.withSuffix ".mp4").str ∧
      "128k" ∈ reencodeCmd p.str (p.withSuffix ".mp4").str ∧
      (p.withSuffix ".mp4").name = nameStem p.name ++ ".mp4") ∧
    (has_video_stream_sync probe = false → tErr = none →
      prepare_media probe rErr tErr p =
        (Except.ok (p.withSuffix ".mp3", Kind.audio),
         [EncodeCall.toMp3 (toMp3Cmd p.str (p.withSuffix ".mp3").str)]) ∧
      "-vn" ∈ toMp3Cmd p.str (p.withSuffix ".mp3").str ∧
      "libmp3lame" ∈ toMp3Cmd p.str (p.withSuffix ".mp3").str ∧
      "192k" ∈ toMp3Cmd p.str (p.withSuffix ".mp3").str ∧
      (p.withSuffix ".mp3").name = nameStem p.name ++ ".mp3") := by
  refine ⟨?_, ?_, ?_⟩
  · intro hav hmp4
    exact prepare_media_canonical probe rErr tErr p hav hmp4
  · intro hav hmp4 hre
    rw [prepare_media_reencode probe rErr tErr p hav hmp4, hre]
    refine ⟨rfl, ?_, ?_, ?_, ?_, ?_, rfl⟩ <;> simp [reencodeCmd]
  · intro hav htm
    rw [prepare_media_audio probe rErr tErr p hav, htm]
    refine ⟨rfl, ?_, ?_, ?_, rfl⟩ <;> simp [toMp3Cmd]

/-- C4 witness: a `.webm` video is re-encoded to the sibling `.mp4`. -/
theorem C4_witness :
    prepare_media (ProbeResult.ok "video") none none pW =
      (Except.ok (pW.withSuffix ".mp4", Kind.video),
       [EncodeCall.reencodeMp4 (reencodeCmd pW.str (pW.withSuffix ".mp4").str)]) ∧
    prepare_media (ProbeResult.ok "video") none none pA =
      (Except.ok (pA, Kind.video), []) := by
  have h2 := (C4_normalizer (ProbeResult.ok "video") none none pW).2.1
    (by decide) (by decide) rfl
  have h1 := (C4_normalizer (ProbeResult.ok "video") none none pA).1
    (by decide) (by decide)
  exact ⟨h2.1, h1⟩

/-- C10 counterexample: a video-classified file named exactly `.mp4`
DOES end in ".mp4" (even case-insensitively), yet the normalizer
re-encodes it (its pathlib suffix is empty, not ".mp4"), producing the
sibling `.mp4.mp4` after one encoder invocation instead of returning it
unchanged. -/
theorem C10_counterexample :
    endsWithL ".mp4" (lowerStr pDot.name) = true ∧
    nameSuffix pDot.name = "" ∧
    (prepare_media (ProbeResult.ok "video") none none pDot).1 =
      Except.ok ({ parent := pDot.parent, name := ".mp4.mp4" }, Kind.video) ∧
    (prepare_media (ProbeResult.ok "video") none none pDot).2.length = 1 := by
  exact ⟨by decide, rfl, rfl, rfl⟩

/-- C10 amended: for video-classified files the no-op decision depends
only on the filename's pathlib suffix, lowercased and compared with
".mp4" (so a dotfile named `.mp4`, whose suffix is empty, is NOT a
no-op); a suffix match of any letter case is returned unchanged
regardless of the probe output beyond the video classification, and any
other file is re-encoded to the sibling path with suffix replaced by
".mp4". -/
theorem C10_amended (probe : ProbeResult) (rErr tErr : Option String) (p : FsPath)
    (hav : has_video_stream_sync probe = true) :
    (lowerStr (nameSuffix p.name) = ".mp4" →
      prepare_media probe rErr tErr p = (Except.ok (p, Kind.video), [])) ∧
    (lowerStr (nameSuffix p.name) ≠ ".mp4" →
      (prepare_media probe rErr tErr p).2 =
        [EncodeCall.reencodeMp4 (reencodeCmd p.str (p.withSuffix ".mp4").str)] ∧
      (rErr = none →
        (prepare_media probe rErr tErr p).1 =
          Except.ok (p.withSuffix ".mp4", Kind.video))) := by
  constructor
  · intro hmp4
    exact prepare_media_canonical probe rErr tErr p hav hmp4
  · intro hmp4
    rw [prepare_media_reencode probe rErr tErr p hav hmp4]
    cases rErr with
    | some m => exact ⟨rfl, fun hre => by cases hre⟩
    | none => exact ⟨rfl, fun _ => rfl⟩

/-- C10 amended witness: an upper-case `.MP4` suffix is a no-op, while
a `.webm` suffix is re-encoded to the `.mp4` sibling. -/
theorem C10_amended_witness :
    prepare_media (ProbeResult.ok "video") none none pU =
      (Except.ok (pU, Kind.video), []) ∧
    (prepare_media (ProbeResult.ok "video") none none pW).1 =
      Except.ok (pW.withSuffix ".mp4", Kind.video) := by
  have h1 := (C10_amended (ProbeResult.ok "video") none none pU (by decide)).1 (by decide)
  have h2 := (C10_amended (ProbeResult.ok "video") none none pW (by decide)).2 (by decide)
  exact ⟨h1, h2.2 rfl⟩

/-- C5 counterexample: the bare string "http://" is not a well-formed
absolute URL (its host part is empty), yet the prefix check accepts it,
the workspace is created and outbound messages are produced — so
"triggers iff well-formed URL" fails. -/
theorem C5_counterexample :
    is_url "http://" = true ∧
    specWellFormedHttpUrl "http://" = false ∧
    (handle_video_message envA "http://").tmpCreated = true ∧
    (handle_video_message envA "http://").trace ≠ [] := by
  exact ⟨by decide, by decide, rfl, by decide⟩

/-- C5 amended: an input triggers the pipeline iff its stripped text
starts with the literal prefix "http://" or "https://" (a pure prefix
test, which also accepts ill-formed strings such as "http://" alone);
every other input is rejected before the pipeline runs, with zero
outbound messages and no workspace. -/
theorem C5_amended (env : Env) (text : String) :
    (is_url (stripStr text) = false →
      (handle_video_message env text).trace = [] ∧
      (handle_video_message env text).outcome = HandlerOutcome.noop ∧
      (handle_video_message env text).tmpCreated = false) ∧
    (is_url (stripStr text) = true →
      (handle_video_message env text).tmpCreated = true ∧
      ((∀ n, env.editErrAt n = none) →
        (handle_video_message env text).trace ≠ [])) := by
  constructor
  · intro h
    unfold handle_video_message
    rw [if_neg (by simp [h])]
    exact ⟨rfl, rfl, rfl⟩
  · intro h
    have hgate : (handle_video_message env text).trace = ((tryBody env).1).1.trace := by
      unfold handle_video_message
      rw [if_pos h]
    refine ⟨?_, ?_⟩
    · unfold handle_video_message
      rw [if_pos h]
    · intro hed hnil
      have ht := tryBody_terminal env hed
      rw [hgate] at hnil
      rw [hnil] at ht
      simp [terminalCount] at ht

/-- C5 amended witness: ordinary conversational text is a silent no-op;
the accepted prefix creates the workspace and produces messages. -/
theorem C5_amended_witness :
    ((handle_video_message envA "hello there").trace = [] ∧
     (handle_video_message envA "hello there").outcome = HandlerOutcome.noop ∧
     (handle_video_message envA "hello there").tmpCreated = false) ∧
    (handle_video_message envA "https://ok").tmpCreated = true := by
  have h1 := (C5_amended envA "hello there").1 (by decide)
  have h2 := (C5_amended envA "https://ok").2 (by decide)
  exact ⟨h1, h2.1⟩

/-! Lemmas about the fetcher configuration. -/

theorem build_opts_no_proxy (dir : String) :
    build_yt_dlp_opts dir none =
      [("outtmpl", OptVal.s (dir ++ "/" ++ outTemplate)),
       ("noplaylist", OptVal.b true), ("quiet", OptVal.b true),
       ("no_warnings", OptVal.b true), ("ignoreconfig", OptVal.b true)] := rfl

theorem build_opts_empty_proxy (dir : String) :
    build_yt_dlp_opts dir (some "") =
      [("outtmpl", OptVal.s (dir ++ "/" ++ outTemplate)),
       ("noplaylist", OptVal.b true), ("quiet", OptVal.b true),
       ("no_warnings", OptVal.b true), ("ignoreconfig", OptVal.b true)] := rfl

theorem build_opts_with_proxy (dir p : String) (hp : p ≠ "") :
    build_yt_dlp_opts dir (some p) =
      [("outtmpl", OptVal.s (dir ++ "/" ++ outTemplate)),
       ("noplaylist", OptVal.b true), ("quiet", OptVal.b true),
       ("no_warnings", OptVal.b true), ("ignoreconfig", OptVal.b true),
       ("proxy", OptVal.s p)] := by
  simp only [build_yt_dlp_opts, if_pos hp]
  rfl

/-- C9: the extraction options disable playlist expansion, suppress
diagnostic chatter, ignore ambient configuration, set no explicit format
override (leaving the tool's default best-stream selection in force),
write via the workspace-scoped 200-character title template, and carry a
proxy exactly when a non-empty proxy is configured; the reported
artifact path is the first requested download, with a deterministic
fallback to the tool-applied naming template. -/
theorem C9_fetcher_config (dir : String) (pe : Option String) (info : DlInfo) :
    List.lookup "noplaylist" (build_yt_dlp_opts dir pe) = some (OptVal.b true) ∧
    List.lookup "quiet" (build_yt_dlp_opts dir pe) = some (OptVal.b true) ∧
    List.lookup "no_warnings" (build_yt_dlp_opts dir pe) = some (OptVal.b true) ∧
    List.lookup "ignoreconfig" (build_yt_dlp_opts dir pe) = some (OptVal.b true) ∧
    List.lookup "format" (build_yt_dlp_opts dir pe) = none ∧
    List.lookup "outtmpl" (build_yt_dlp_opts dir pe) =
      some (OptVal.s (dir ++ "/" ++ outTemplate)) ∧
    hasInfixStr ".200s" outTemplate = true ∧
    (∀ p2, pe = some p2 → p2 ≠ "" →
      List.lookup "proxy" (build_yt_dlp_opts dir pe) = some (OptVal.s p2)) ∧
    ((pe = none ∨ pe = some "") →
      List.lookup "proxy" (build_yt_dlp_opts dir pe) = none) ∧
    (∀ fp rest, info.requested_downloads = fp :: rest → download_pick info = fp) ∧
    (info.requested_downloads = [] →
      download_pick info = info.prepared_filename) := by
  have hpick1 : ∀ fp rest, info.requested_downloads = fp :: rest →
      download_pick info = fp := by
    intro fp rest h
    unfold download_pick
    rw [h]
  have hpick2 : info.requested_downloads = [] →
      download_pick info = info.prepared_filename := by
    intro h
    unfold download_pick
    rw [h]
  rcases pe with _ | p
  · rw [build_opts_no_proxy dir]
    refine ⟨rfl, rfl, rfl, rfl, rfl, rfl, by decide, ?_, fun _ => rfl, hpick1, hpick2⟩
    intro p2 h
    cases h
  · by_cases hp : p = ""
    · subst hp
      rw [build_opts_empty_proxy dir]
      refine ⟨rfl, rfl, rfl, rfl, rfl, rfl, by decide, ?_, fun _ => rfl, hpick1, hpick2⟩
      intro p2 h hne
      cases h
      exact absurd rfl hne
    · rw [build_opts_with_proxy dir p hp]
      refine ⟨rfl, rfl, rfl, rfl, rfl, rfl, by decide, ?_, ?_, hpick1, hpick2⟩
      · intro p2 h _
        cases h
        rfl
      · rintro (h | h)
        · cases h
        · cases h
          exact absurd rfl hp

/-- C9 witness: a configured SOCKS5 proxy appears in the options, and
the reported path is the first requested download. -/
theorem C9_witness :
    List.lookup "proxy" (build_yt_dlp_opts "/w" (some "socks5://u:pw@h:1")) =
      some (OptVal.s "socks5://u:pw@h:1") ∧
    List.lookup "format" (build_yt_dlp_opts "/w" (some "socks5://u:pw@h:1")) = none ∧
    download_pick { requested_downloads := ["/w/a.mp4"], prepared_filename := "/w/t.mp4" } =
      "/w/a.mp4" := by
  have h := C9_fetcher_config "/w" (some "socks5://u:pw@h:1")
    { requested_downloads := ["/w/a.mp4"], prepared_filename := "/w/t.mp4" }
  refine ⟨?_, h.2.2.2.2.1, ?_⟩
  · exact h.2.2.2.2.2.2.2.1 "socks5://u:pw@h:1" rfl (by decide)
  · exact h.2.2.2.2.2.2.2.2.2.1 "/w/a.mp4" [] rfl

/-! Further handler lemmas for the remaining claims. -/

theorem doEdit_eq_none (f : Nat → Option String) (s : HState) (t : String)
    (h : f s.edits = none) :
    doEdit f s t =
      ({ trace := s.trace ++ [OutAction.editStatus t], edits := s.edits + 1 }, none) := by
  unfold doEdit
  rw [h]

theorem handleErrS_eq_none (env : Env) (s : HState) (m : String)
    (h : env.editErrAt s.edits = none) :
    handleErrS env s m =
      ({ trace := s.trace ++ [OutAction.editStatus (errMsgFor m)], edits := s.edits + 1 },
       HandlerOutcome.done) := by
  unfold handleErrS
  rw [doEdit_eq_none env.editErrAt s (errMsgFor m) h]

theorem tryBody_dl_err (env : Env) (m : String) (h : env.downloadRes = Except.error m) :
    tryBody env =
      (handleErrS env { trace := [OutAction.answerStatus downloadingMsg], edits := 0 } m,
       []) := by
  unfold tryBody
  rw [h]

theorem tryBody_dl_ok (env : Env) (p : FsPath) (h : env.downloadRes = Except.ok p) :
    tryBody env =
      (match prepare_media env.probe env.reencodeErr env.toMp3Err p with
       | (Except.error m, pcalls) =>
         (handleErrS env { trace := [OutAction.answerStatus downloadingMsg], edits := 0 } m,
          pcalls)
       | (Except.ok pk, pcalls) =>
         let fc : Option FsPath × List EncodeCall :=
           match pk.2 with
           | Kind.audio => (some pk.1, [])
           | Kind.video =>
             compress_if_needed env.preparedSize env.compressErr
               env.compressedExists env.compressedSize pk.1
         (deliverPhase env { trace := [OutAction.answerStatus downloadingMsg], edits := 0 }
            pk.2 fc.1,
          pcalls ++ fc.2)) := by
  unfold tryBody
  rw [h]

/-- C6: an audio-classified request never invokes the size reducer's
encoder, and when the produced audio exceeds the 50 MB cap the run ends
with the dedicated size-limit status edit — which names the 50 MB
constraint — and no delivery. -/
theorem C6_audio_not_reduced (env : Env) (text : String) (p : FsPath)
    (hu : is_url (stripStr text) = true)
    (hdl : env.downloadRes = Except.ok p)
    (hav : has_video_stream_sync env.probe = false) :
    (∀ c ∈ (handle_video_message env text).calls, ∀ cmd, c ≠ EncodeCall.compress cmd) ∧
    (env.toMp3Err = none → TELEGRAM_MAX_FILE_SIZE < env.preparedSize →
      (∀ n, env.editErrAt n = none) →
      (handle_video_message env text).trace =
        [OutAction.answerStatus downloadingMsg, OutAction.editStatus sendingAudioMsg,
         OutAction.editStatus tooBigAudioMsg] ∧
      hasInfixStr "50 МБ" tooBigAudioMsg = true) := by
  have hcalls : (handle_video_message env text).calls = (tryBody env).2 := by
    unfold handle_video_message
    rw [if_pos hu]
  have htr : (handle_video_message env text).trace = ((tryBody env).1).1.trace := by
    unfold handle_video_message
    rw [if_pos hu]
  constructor
  · rw [hcalls, tryBody_dl_ok env p hdl,
      prepare_media_audio env.probe env.reencodeErr env.toMp3Err p hav]
    cases htm : env.toMp3Err with
    | some m => simp
    | none => simp
  · intro htm hsz hed
    refine ⟨?_, by decide⟩
    rw [htr, tryBody_dl_ok env p hdl,
      prepare_media_audio env.probe env.reencodeErr env.toMp3Err p hav, htm]
    simp only [doEdit_all_none env.editErrAt hed, deliverPhase, if_pos hsz]
    rfl

/-- C6 witness: an oversized MP3 conversion of an audio-only download
ends in the explicit 50 MB failure edit with no compress call. -/
theorem C6_witness :
    (∀ c ∈ (handle_video_message envAud "http://z").calls,
      ∀ cmd, c ≠ EncodeCall.compress cmd) ∧
    (handle_video_message envAud "http://z").trace =
      [OutAction.answerStatus downloadingMsg, OutAction.editStatus sendingAudioMsg,
       OutAction.editStatus tooBigAudioMsg] := by
  have h := C6_audio_not_reduced envAud "http://z" pB (by decide) rfl (by decide)
  exact ⟨h.1, (h.2 rfl (by decide) (fun n => rfl)).1⟩

/-- C7: when the fetch stage raises with message `m`, the run produces
exactly one user-facing failure edit, whose text is the CAPTCHA-specific
message iff `m` contains a bot-verification phrase and the fixed generic
message otherwise — never the internal exception text. -/
theorem C7_failure_classification (env : Env) (text m : String)
    (hu : is_url (stripStr text) = true)
    (hdl : env.downloadRes = Except.error m)
    (hed : ∀ n, env.editErrAt n = none) :
    (handle_video_message env text).trace =
      [OutAction.answerStatus downloadingMsg, OutAction.editStatus (errMsgFor m)] ∧
    (handle_video_message env text).outcome = HandlerOutcome.done ∧
    (phraseMatch m = true → errMsgFor m = captchaMsg) ∧
    (phraseMatch m = false → errMsgFor m = genericMsg) ∧
    (errMsgFor m = captchaMsg ∨ errMsgFor m = genericMsg) := by
  have h1 : handle_video_message env text =
      { trace := ((tryBody env).1).1.trace, calls := (tryBody env).2,
        outcome := (tryBody env).1.2, cleanedUp := true, tmpCreated := true } := by
    unfold handle_video_message
    rw [if_pos hu]
  rw [h1, tryBody_dl_err env m hdl, handleErrS_all_none env hed]
  refine ⟨rfl, rfl, ?_, ?_, ?_⟩
  · intro h
    simp [errMsgFor, h]
  · intro h
    simp [errMsgFor, h]
  · cases hp : phraseMatch m
    · right
      simp [errMsgFor, hp]
    · left
      simp [errMsgFor, hp]

/-- C7 witness: a fetch error containing the bot-verification phrase is
reported with the CAPTCHA-specific message, not the generic one. -/
theorem C7_witness :
    (handle_video_message envE "http://y").trace =
      [OutAction.answerStatus downloadingMsg, OutAction.editStatus captchaMsg] ∧
    captchaMsg ≠ genericMsg := by
  have h := C7_failure_classification envE "http://y" msgE (by decide) rfl (fun n => rfl)
  have hm : errMsgFor msgE = captchaMsg := h.2.2.1 (by decide)
  refine ⟨?_, by decide⟩
  rw [h.1, hm]

/-- C8 counterexample: with the delivery raising and the subsequent
error edit raising as well, the secondary exception escapes the handler
(outcome `raised`), refuting "no exception propagates out of the request
handler"; the workspace is still removed by the `finally`. -/
theorem C8_counterexample :
    envC8.videoSendErr = some "boom" ∧
    (handle_video_message envC8 "http://x").outcome =
      HandlerOutcome.raised "edit failed" ∧
    (handle_video_message envC8 "http://x").cleanedUp = true := by
  exact ⟨rfl, by decide, rfl⟩

/-- C8 amended: when the delivery collaborator raises, the handler makes
a best-effort edit of the status message to the classified error text;
if that edit is accepted, exactly it fires and the handler returns
normally — but the edit is not guarded, so if it raises too, the
secondary exception propagates out of the handler.  Workspace cleanup
runs in either case. -/
theorem C8_amended (env : Env) (text m : String) (p : FsPath)
    (hu : is_url (stripStr text) = true)
    (hdl : env.downloadRes = Except.ok p)
    (hav : has_video_stream_sync env.probe = true)
    (hmp4 : lowerStr (nameSuffix p.name) = ".mp4")
    (hsz : env.preparedSize ≤ TELEGRAM_MAX_FILE_SIZE)
    (hsend : env.videoSendErr = some m)
    (h0 : env.editErrAt 0 = none) :
    (handle_video_message env text).cleanedUp = true ∧
    (env.editErrAt 1 = none →
      (handle_video_message env text).outcome = HandlerOutcome.done ∧
      (handle_video_message env text).trace =
        [OutAction.answerStatus downloadingMsg, OutAction.editStatus sendingVideoMsg,
         OutAction.editStatus (errMsgFor m)]) ∧
    (∀ m2, env.editErrAt 1 = some m2 →
      (handle_video_message env text).outcome = HandlerOutcome.raised m2 ∧
      (handle_video_message env text).cleanedUp = true) := by
  have h1 : handle_video_message env text =
      { trace := ((tryBody env).1).1.trace, calls := (tryBody env).2,
        outcome := (tryBody env).1.2, cleanedUp := true, tmpCreated := true } := by
    unfold handle_video_message
    rw [if_pos hu]
  have htb : tryBody env =
      (deliverPhase env { trace := [OutAction.answerStatus downloadingMsg], edits := 0 }
        Kind.video (some p), []) := by
    rw [tryBody_dl_ok env p hdl,
      prepare_media_canonical env.probe env.reencodeErr env.toMp3Err p hav hmp4]
    simp only [compress_noop env.preparedSize env.compressErr env.compressedExists
      env.compressedSize p hsz, List.nil_append]
  have hdp : deliverPhase env { trace := [OutAction.answerStatus downloadingMsg], edits := 0 }
      Kind.video (some p) =
      handleErrS env
        { trace := [OutAction.answerStatus downloadingMsg,
                    OutAction.editStatus sendingVideoMsg], edits := 1 } m := by
    simp only [deliverPhase,
      doEdit_eq_none env.editErrAt
        { trace := [OutAction.answerStatus downloadingMsg], edits := 0 } sendingVideoMsg h0,
      hsend]
    rfl
  refine ⟨?_, ?_, ?_⟩
  · rw [h1]
  · intro h1e
    rw [h1, htb, hdp, handleErrS_eq_none env _ m h1e]
    exact ⟨rfl, rfl⟩
  · intro m2 h1e
    rw [h1, htb, hdp, handleErrS_eq_some env _ m m2 h1e]
    exact ⟨rfl, rfl⟩

/-- C8 amended witness: delivery raises, the error edit is accepted:
the run ends normally with exactly the generic failure edit, and the
workspace is removed. -/
theorem C8_amended_witness :
    (handle_video_message envDel "http://x").cleanedUp = true ∧
    (handle_video_message envDel "http://x").outcome = HandlerOutcome.done ∧
    (handle_video_message envDel "http://x").trace =
      [OutAction.answerStatus downloadingMsg, OutAction.editStatus sendingVideoMsg,
       OutAction.editStatus (errMsgFor "boom")] := by
  have h := C8_amended envDel "http://x" "boom" pA (by decide) rfl (by decide) (by decide)
    (by decide) rfl rfl
  exact ⟨h.1, (h.2.1 rfl).1, (h.2.1 rfl).2⟩
